import Mathlib

/-!
# Contact form backend: `src/server.js`

A shallow embedding of the two pieces of logic in `src/server.js`:

* `isValidEmail` (lines 41-42), a regular-expression test, and
* the `POST /api/contact` handler (lines 64-109), which validates a JSON body and
  hands two messages to a mail transport inside a `try`/`catch`.

JavaScript values are embedded as the datatype `JSVal` (what `JSON.parse` can produce,
plus `undefined` for a missing property); the conversions the handler applies to them
(`!v`, `String(v)`, template-literal interpolation, `a || b`) are embedded as
`toBoolean`, `toStr` and `JSVal.or`.  The mail transport is an external collaborator: it is
embedded as the outcome (resolve or reject) of each `sendMail` call, by call number, and the
handler records every message it hands over.
-/

namespace ContactForm

/-! ## JavaScript values -/

/-- A Number value, kept as the two observations this program makes of it: `ToBoolean`
(false exactly for `+0`, `-0` and `NaN`) and the text `Number::toString` produces.
No arithmetic is performed on numbers anywhere in the program. -/
structure JSNumber where
  truthy : Bool
  text : String
deriving DecidableEq, Repr

/-- The values a parsed JSON body is made of, and `undefined` for a property that is absent.
A string is kept as its sequence of code points (a character outside the basic plane is one
element here and two code units in JavaScript; both halves fall in the same character classes
of the pattern below, so the test is unaffected; unpaired surrogates are not represented).
An object is kept as the list of its own properties. -/
inductive JSVal where
  | undefined
  | null
  | bool (b : Bool)
  | number (n : JSNumber)
  | string (s : String)
  | array (items : List JSVal)
  | object (fields : List (String × JSVal))
deriving Repr

/-- The values that can be thrown inside the handler's `try` block: a `TypeError` raised by the
language itself, or the rejection reason of a `sendMail` promise. -/
inductive JSErr where
  | typeError (msg : String)
  | sendFailure (reason : String)
deriving DecidableEq, Repr

deriving instance DecidableEq for Except

/-- The abstract operation `ToBoolean`, which decides `!v` and `a || b`. -/
def toBoolean : JSVal → Bool
  | .undefined => false
  | .null => false
  | .bool b => b
  | .number n => n.truthy
  | .string s => !s.data.isEmpty
  | .array _ => true
  | .object _ => true

/-- The expression `a || b`. -/
def JSVal.or (a b : JSVal) : JSVal :=
  if toBoolean a then a else b

/-- Property read `o.key` as destructuring performs it.  Reading from `undefined` or `null`
throws; a parsed JSON object yields its own property or `undefined`; arrays and primitives
have none of the property names this program reads. -/
def getProp (o : JSVal) (key : String) : Except JSErr JSVal :=
  match o with
  | .undefined => .error (.typeError "Cannot destructure property of undefined")
  | .null => .error (.typeError "Cannot destructure property of null")
  | .object fields =>
      match fields.find? (fun kv => kv.1 == key) with
      | some kv => .ok kv.2
      | none => .ok .undefined
  | _ => .ok .undefined

mutual
/-- The abstract operation `ToString`, applied by `String(v)` and by `${v}` in a template
literal.  A parsed object has no callable `toString` of its own: it inherits
`Object.prototype.toString` unless an own property named `toString` shadows it, in which case
neither `toString` nor `valueOf` yields a primitive and a `TypeError` is thrown.  An array
joins its elements with a comma. -/
def toStr : JSVal → Except JSErr String
  | .undefined => .ok "undefined"
  | .null => .ok "null"
  | .bool b => .ok (if b then "true" else "false")
  | .number n => .ok n.text
  | .string s => .ok s
  | .array items => joinItems items
  | .object fields =>
      if fields.any (fun kv => kv.1 == "toString") then
        .error (.typeError "Cannot convert object to primitive value")
      else .ok "[object Object]"
termination_by structural v => v
/-- The call `Array.prototype.join` with the default separator: `undefined` and `null` elements
render as the empty string, every other element through `ToString`. -/
def joinItems : List JSVal → Except JSErr String
  | [] => .ok ""
  | x :: rest =>
      match (match x with
             | .undefined => Except.ok ""
             | .null => Except.ok ""
             | v => toStr v) with
      | .error e => .error e
      | .ok s =>
          if rest.isEmpty then .ok s
          else
            match joinItems rest with
            | .error e => .error e
            | .ok t => .ok (s ++ "," ++ t)
termination_by structural xs => xs
end

/-! ## Regular expressions -/

/-- Regular expressions over characters, with character classes given as predicates. -/
inductive RE where
  | empty
  | eps
  | cls (p : Char → Bool)
  | seq (r s : RE)
  | alt (r s : RE)
  | star (r : RE)

namespace RE

/-- The quantifier `r+`. -/
def plus (r : RE) : RE := seq r (star r)

/-- Whether `r` accepts the empty string. -/
def nullable : RE → Bool
  | empty => false
  | eps => true
  | cls _ => false
  | seq r s => nullable r && nullable s
  | alt r s => nullable r || nullable s
  | star _ => true

/-- The derivative of `r` by the character `c`. -/
def deriv : RE → Char → RE
  | empty, _ => empty
  | eps, _ => empty
  | cls p, c => if p c then eps else empty
  | seq r s, c => if nullable r then alt (seq (deriv r c) s) (deriv s c) else seq (deriv r c) s
  | alt r s, c => alt (deriv r c) (deriv s c)
  | star r, c => seq (deriv r c) (star r)

/-- Whole-string match: what `/^r$/.test(w)` computes (no flags, so `^` and `$` are the two
ends of the input). -/
def rmatch : RE → List Char → Bool
  | r, [] => nullable r
  | r, c :: w => rmatch (deriv r c) w

/-- The strings a regular expression denotes. -/
def Matches : RE → List Char → Prop
  | empty, _ => False
  | eps, w => w = []
  | cls p, w => ∃ c, w = [c] ∧ p c = true
  | seq r s, w => ∃ u v, w = u ++ v ∧ Matches r u ∧ Matches s v
  | alt r s, w => Matches r w ∨ Matches s w
  | star r, w => ∃ ws : List (List Char), w = ws.flatten ∧ ∀ u ∈ ws, Matches r u

end RE

/-- The class `\s`: the WhiteSpace and LineTerminator code points of ECMAScript. -/
def isWhiteSpace (c : Char) : Bool :=
  let n := c.toNat
  n == 0x09 || n == 0x0A || n == 0x0B || n == 0x0C || n == 0x0D || n == 0x20 ||
  n == 0xA0 || n == 0x1680 || (0x2000 ≤ n && n ≤ 0x200A) || n == 0x2028 || n == 0x2029 ||
  n == 0x202F || n == 0x205F || n == 0x3000 || n == 0xFEFF

/-- The class `[^\s@]`. -/
def notSpaceAt (c : Char) : Bool :=
  !(isWhiteSpace c || c == '@')

/-- The pattern `[^\s@]+@[^\s@]+\.[^\s@]+` between the anchors of line 42. -/
def emailRE : RE :=
  .seq (.plus (.cls notSpaceAt))
    (.seq (.cls (fun c => c == '@'))
      (.seq (.plus (.cls notSpaceAt))
        (.seq (.cls (fun c => c == '.'))
          (.plus (.cls notSpaceAt)))))

/-- The regular-expression test of `isValidEmail` on a string. -/
def isValidEmailStr (s : String) : Bool :=
  RE.rmatch emailRE s.data

/-- The function `isValidEmail` (lines 41-42): `String(email)`, then the test. -/
def isValidEmail (email : JSVal) : Except JSErr Bool :=
  match toStr email with
  | .error e => .error e
  | .ok s => .ok (isValidEmailStr s)

/-! ## Configuration, messages, responses -/

/-- The environment variables the handler reads (lines 12, 78, 94, 100).  Each is a string, or
absent when the variable is not set. -/
structure Config where
  OWNER_EMAIL : Option String
  FROM_NAME : Option String
  FROM_EMAIL : Option String
deriving DecidableEq, Repr

/-- The value of `process.env.X`. -/
def envVal : Option String → JSVal
  | some s => .string s
  | none => .undefined

/-- The text `${process.env.X}` interpolates: the string itself, or `undefined`. -/
def envText : Option String → String
  | some s => s
  | none => "undefined"

/-- The argument object of one `transporter.sendMail` call.  The fields `from_` and `to_` are
the properties `from` and `to`; `replyTo` is `none` when the property is not given. -/
structure Mail where
  from_ : String
  to_ : JSVal
  replyTo : Option JSVal
  subject : String
  html : String
deriving Repr

/-- One response written to `res`: the status code and the JSON payload. -/
structure Response where
  status : Nat
  body : JSVal
deriving Repr

/-- The mail transport, as the outcome of each `sendMail` call by call number (from 0):
the awaited promise resolves, or rejects with a reason. -/
abbrev Transport := Nat → Except JSErr Unit

/-- What one execution of the handler has done: the responses written to `res`, the messages
handed to `transporter.sendMail` (every attempt, whether or not it succeeded), and the errors
passed to `console.error`, each in order. -/
structure Run where
  responses : List Response
  sent : List Mail
  logged : List JSErr
deriving Repr

/-- The payload `{ error: msg }`. -/
def errorBody (msg : String) : JSVal :=
  .object [("error", .string msg)]

/-- The payload `{ ok: true }`. -/
def okBody : JSVal :=
  .object [("ok", .bool true)]

/-- The call `res.status(code).json(body)`; `res.json(body)` alone is the case of the default
status 200. -/
def respond (code : Nat) (body : JSVal) (w : Run) : Run :=
  { w with responses := w.responses ++ [⟨code, body⟩] }

/-- The call `await transporter.sendMail(m)`: the message is handed over, and the outcome is that
of the transport for this call. -/
def sendMail (t : Transport) (m : Mail) (w : Run) : Except JSErr Unit × Run :=
  (t w.sent.length, { w with sent := w.sent ++ [m] })

/-- The text of the `from` property (lines 78 and 94). -/
def fromHeader (cfg : Config) : String :=
  "\"" ++ envText cfg.FROM_NAME ++ "\" <" ++ envText cfg.FROM_EMAIL ++ ">"

/-- The template literal of lines 82-89, with the five interpolated texts as arguments. -/
def ownerHtml (name email phone service message : String) : String :=
  "\n        <h3>New Contact Request</h3>\n        <p><b>Name:</b> " ++ name ++
  "</p>\n        <p><b>Email:</b> " ++ email ++
  "</p>\n        <p><b>Phone:</b> " ++ phone ++
  "</p>\n        <p><b>Service:</b> " ++ service ++
  "</p>\n        <p><b>Message:</b> " ++ message ++
  "</p>\n      "

/-- The template literal of lines 97-101. -/
def userHtml (name fromName : String) : String :=
  "\n        <p>Hi " ++ name ++
  ",</p>\n        <p>Thanks for contacting us. We’ll get back to you soon.</p>\n        <p>— " ++
  fromName ++ "</p>\n      "

/-- The argument of the first `sendMail` call (lines 77-90).  The interpolations are evaluated
in source order; any of them may throw. -/
def ownerMail (cfg : Config) (name email phone service message : JSVal) : Except JSErr Mail := do
  let subjectName ← toStr name
  let n ← toStr name
  let e ← toStr email
  let p ← toStr (phone.or (.string "-"))
  let s ← toStr service
  let m ← toStr message
  pure { from_ := fromHeader cfg
         to_ := envVal cfg.OWNER_EMAIL
         replyTo := some email
         subject := "New Contact: " ++ subjectName
         html := ownerHtml n e p s m }

/-- The argument of the second `sendMail` call (lines 93-102). -/
def userMail (cfg : Config) (name email : JSVal) : Except JSErr Mail := do
  let n ← toStr name
  pure { from_ := fromHeader cfg
         to_ := email
         replyTo := none
         subject := "We received your request"
         html := userHtml n (envText cfg.FROM_NAME) }

/-- The destructuring `const { name, email, phone, service, message } = req.body` (line 66). -/
def destructure (body : JSVal) : Except JSErr (JSVal × JSVal × JSVal × JSVal × JSVal) := do
  let name ← getProp body "name"
  let email ← getProp body "email"
  let phone ← getProp body "phone"
  let service ← getProp body "service"
  let message ← getProp body "message"
  pure (name, email, phone, service, message)

/-- The body of the `try` block (lines 66-104), from the state `w`.  The result is the state
reached together with either normal completion or the value thrown. -/
def tryBlock (cfg : Config) (t : Transport) (body : JSVal) (w : Run) : Except JSErr Unit × Run :=
  match destructure body with
  | .error e => (.error e, w)
  | .ok (name, email, phone, service, message) =>
    if !toBoolean name || !toBoolean email || !toBoolean service || !toBoolean message then
      (.ok (), respond 400 (errorBody "Required fields missing") w)
    else
      match isValidEmail email with
      | .error e => (.error e, w)
      | .ok false => (.ok (), respond 400 (errorBody "Invalid email") w)
      | .ok true =>
        match ownerMail cfg name email phone service message with
        | .error e => (.error e, w)
        | .ok m1 =>
          match sendMail t m1 w with
          | (.error e, w1) => (.error e, w1)
          | (.ok (), w1) =>
            match userMail cfg name email with
            | .error e => (.error e, w1)
            | .ok m2 =>
              match sendMail t m2 w1 with
              | (.error e, w2) => (.error e, w2)
              | (.ok (), w2) => (.ok (), respond 200 okBody w2)

/-- The handler of `POST /api/contact` (lines 64-109): the `try` block, and the `catch` clause
that logs the thrown value and answers 500. -/
def contactHandler (cfg : Config) (t : Transport) (body : JSVal) : Run :=
  match tryBlock cfg t body ⟨[], [], []⟩ with
  | (.ok (), w) => w
  | (.error err, w) =>
      respond 500 (errorBody "Server error") { w with logged := w.logged ++ [err] }

/-- The request body with the five fields as given (`undefined` for an absent one). -/
def mkBody (name email phone service message : JSVal) : JSVal :=
  .object [("name", name), ("email", email), ("phone", phone), ("service", service),
    ("message", message)]

/-- The transport on which every call succeeds. -/
def allOk : Transport := fun _ => .ok ()

/-- The transport on which every call is rejected with the given reason. -/
def allFail (reason : String) : Transport := fun _ => .error (.sendFailure reason)

/-- The transport whose first call succeeds and whose later calls are rejected. -/
def secondFails (reason : String) : Transport :=
  fun k => if k = 0 then .ok () else .error (.sendFailure reason)

/-- A configuration used for concrete runs. -/
def sampleConfig : Config :=
  ⟨some "owner@site.test", some "Site", some "noreply@site.test"⟩

/-- The submission `{name:"Jane", email:"jane@example.com", phone:"555-1234",
service:"Consulting", message:"Hello"}`. -/
def janeBody : JSVal :=
  mkBody (.string "Jane") (.string "jane@example.com") (.string "555-1234")
    (.string "Consulting") (.string "Hello")

/-- The same submission with `phone` absent. -/
def janeNoPhone : JSVal :=
  .object [("name", .string "Jane"), ("email", .string "jane@example.com"),
    ("service", .string "Consulting"), ("message", .string "Hello")]

/-- The same submission with an object for `phone` that cannot be converted to a string. -/
def janeOddPhone : JSVal :=
  mkBody (.string "Jane") (.string "jane@example.com")
    (.object [("toString", .number ⟨true, "1"⟩)]) (.string "Consulting") (.string "Hello")

/-- The response `400 {error: "Required fields missing"}`. -/
def missingResponse : Response := ⟨400, errorBody "Required fields missing"⟩

/-- The response `400 {error: "Invalid email"}`. -/
def invalidResponse : Response := ⟨400, errorBody "Invalid email"⟩

/-- The response `500 {error: "Server error"}`. -/
def serverErrorResponse : Response := ⟨500, errorBody "Server error"⟩

/-- The response `200 {ok: true}`. -/
def okResponse : Response := ⟨200, okBody⟩

/-- A field value that is absent or the empty string. -/
def AbsentOrEmpty (v : JSVal) : Prop :=
  v = .undefined ∨ v = .string ""

/-- The body carries a contact submission: `name`, `email`, `service` and `message` are the
given strings, `phone` is the given value. -/
def HasFields (body : JSVal) (name email : String) (phone : JSVal) (service message : String) :
    Prop :=
  destructure body = .ok (.string name, .string email, phone, .string service, .string message)

/-- The submission passes both validation steps: the three texts are non-empty and the email is
accepted by `isValidEmail`. -/
def PassesValidation (name email service message : String) : Prop :=
  name ≠ "" ∧ service ≠ "" ∧ message ≠ "" ∧ isValidEmailStr email = true

instance (name email service message : String) :
    Decidable (PassesValidation name email service message) := by
  unfold PassesValidation
  infer_instance

/-- The interpolation `${phone || "-"}` yields the given text: `-` for an absent or empty
`phone`, the string itself for a non-empty string. -/
def PhoneText (phone : JSVal) (text : String) : Prop :=
  toStr (phone.or (.string "-")) = .ok text

instance (phone : JSVal) (text : String) : Decidable (PhoneText phone text) := by
  unfold PhoneText
  infer_instance

/-- Whether an awaited `sendMail` promise was rejected. -/
def rejected : Except JSErr Unit → Bool
  | .error _ => true
  | .ok _ => false

/-- The first `sendMail` call is rejected, or it succeeds and the second is rejected. -/
def SomeSendFails (t : Transport) : Prop :=
  rejected (t 0) = true ∨ (rejected (t 0) = false ∧ rejected (t 1) = true)

instance (t : Transport) : Decidable (SomeSendFails t) := by
  unfold SomeSendFails
  infer_instance

/-- The first message for a submission whose fields are strings: `phone` stands for the text
that `${phone || "-"}` yields. -/
def ownerMessage (cfg : Config) (name email phone service message : String) : Mail :=
  { from_ := fromHeader cfg
    to_ := envVal cfg.OWNER_EMAIL
    replyTo := some (.string email)
    subject := "New Contact: " ++ name
    html := ownerHtml name email phone service message }

/-- The second message for a submission whose fields are strings. -/
def userMessage (cfg : Config) (name email : String) : Mail :=
  { from_ := fromHeader cfg
    to_ := .string email
    replyTo := none
    subject := "We received your request"
    html := userHtml name (envText cfg.FROM_NAME) }

/-- Whether `ToString` succeeds on a value. -/
def convertible (v : JSVal) : Bool :=
  match toStr v with
  | .ok _ => true
  | .error _ => false

/-- The shape of a run as the data-model invariant describes it: rejected with status 400 before
any `sendMail` call, or both messages handed to the transport. -/
def RejectedOrBothAttempted (r : Run) : Prop :=
  (r.responses.map Response.status = [400] ∧ r.sent.length = 0) ∨ r.sent.length = 2

instance (r : Run) : Decidable (RejectedOrBothAttempted r) := by
  unfold RejectedOrBothAttempted
  infer_instance

/-- A valid submission whose message is a piece of markup. -/
def scriptBody : JSVal :=
  mkBody (.string "Jane") (.string "jane@example.com") .undefined (.string "Consulting")
    (.string "<script>x</script>")

/-! ## The regular-expression matcher is correct -/

namespace RE

theorem nullable_iff (r : RE) : nullable r = true ↔ Matches r [] := by
  induction r with
  | empty => simp [nullable, Matches]
  | eps => simp [nullable, Matches]
  | cls p => simp [nullable, Matches]
  | seq r s ihr ihs =>
    simp only [nullable, Matches, Bool.and_eq_true, ihr, ihs]
    constructor
    · rintro ⟨hr, hs⟩; exact ⟨[], [], rfl, hr, hs⟩
    · rintro ⟨u, v, h, hr, hs⟩
      obtain ⟨rfl, rfl⟩ := List.append_eq_nil.1 h.symm
      exact ⟨hr, hs⟩
  | alt r s ihr ihs => simp [nullable, Matches, ihr, ihs]
  | star r _ =>
    simp only [nullable, Matches, true_iff]
    exact ⟨[], by simp⟩

theorem star_cons_iff (r : RE) (c : Char) (w : List Char) :
    Matches (star r) (c :: w) ↔
      ∃ u v, w = u ++ v ∧ Matches r (c :: u) ∧ Matches (star r) v := by
  constructor
  · rintro ⟨ws, hw, hall⟩
    induction ws with
    | nil => simp at hw
    | cons x xs ih =>
      cases x with
      | nil =>
        apply ih
        · simpa using hw
        · intro u hu; exact hall u (List.mem_cons_of_mem _ hu)
      | cons a x =>
        simp only [List.flatten_cons, List.cons_append, List.cons.injEq] at hw
        obtain ⟨rfl, rfl⟩ := hw
        exact ⟨x, xs.flatten, rfl, hall _ (List.mem_cons_self _ _), xs, rfl,
          fun u hu => hall u (List.mem_cons_of_mem _ hu)⟩
  · rintro ⟨u, v, rfl, hu, ws, rfl, hall⟩
    refine ⟨(c :: u) :: ws, by simp, ?_⟩
    intro x hx
    rcases List.mem_cons.1 hx with rfl | hx
    · exact hu
    · exact hall x hx

theorem deriv_iff (r : RE) (c : Char) (w : List Char) :
    Matches (deriv r c) w ↔ Matches r (c :: w) := by
  induction r generalizing w with
  | empty => simp [deriv, Matches]
  | eps => simp [deriv, Matches]
  | cls p =>
    by_cases hp : p c = true
    · simp only [deriv, hp, if_true, Matches]
      constructor
      · rintro rfl; exact ⟨c, rfl, hp⟩
      · rintro ⟨c', h, _⟩; simp only [List.cons.injEq] at h; exact h.2
    · simp only [deriv, hp, Matches, false_iff]
      rintro ⟨c', h, hc'⟩
      simp only [List.cons.injEq] at h
      exact hp (h.1 ▸ hc')
  | seq r s ihr ihs =>
    have key : Matches (seq r s) (c :: w) ↔
        (∃ u v, w = u ++ v ∧ Matches r (c :: u) ∧ Matches s v) ∨
        (Matches r [] ∧ Matches s (c :: w)) := by
      constructor
      · rintro ⟨u, v, h, hu, hv⟩
        cases u with
        | nil => right; simp only [List.nil_append] at h; subst h; exact ⟨hu, hv⟩
        | cons a u =>
          simp only [List.cons_append, List.cons.injEq] at h
          obtain ⟨rfl, rfl⟩ := h
          exact Or.inl ⟨u, v, rfl, hu, hv⟩
      · rintro (⟨u, v, rfl, hu, hv⟩ | ⟨hr, hs⟩)
        · exact ⟨c :: u, v, rfl, hu, hv⟩
        · exact ⟨[], c :: w, rfl, hr, hs⟩
    rw [key]
    by_cases hn : nullable r = true
    · simp only [deriv, hn, if_true, Matches, ihr, ihs]
      have := (nullable_iff r).1 hn
      simp only [Matches, this, true_and]
    · have h0 : ¬ Matches r [] := fun h => hn ((nullable_iff r).2 h)
      simp only [deriv, hn, Matches, ihr, h0, false_and, or_false]
  | alt r s ihr ihs => simp [deriv, Matches, ihr, ihs]
  | star r ih =>
    rw [star_cons_iff]
    simp only [deriv, Matches, ih]

theorem rmatch_iff (r : RE) (w : List Char) : rmatch r w = true ↔ Matches r w := by
  induction w generalizing r with
  | nil => simpa [rmatch] using nullable_iff r
  | cons c w ih => simp only [rmatch, ih, deriv_iff]

theorem plus_cls_iff (p : Char → Bool) (w : List Char) :
    Matches (plus (cls p)) w ↔ w ≠ [] ∧ ∀ c ∈ w, p c = true := by
  constructor
  · rintro ⟨u, v, rfl, ⟨c, rfl, hc⟩, ws, rfl, hall⟩
    refine ⟨by simp, ?_⟩
    intro d hd
    simp only [List.singleton_append, List.mem_cons, List.mem_flatten] at hd
    rcases hd with rfl | ⟨x, hx, hdx⟩
    · exact hc
    · obtain ⟨e, rfl, he⟩ := hall x hx
      simp only [List.mem_singleton] at hdx
      exact hdx ▸ he
  · rintro ⟨hne, hall⟩
    cases w with
    | nil => exact absurd rfl hne
    | cons c w =>
      have hflat : ∀ l : List Char, l = (l.map (fun d => [d])).flatten := by
        intro l
        induction l with
        | nil => rfl
        | cons d l ih => simpa using ih
      refine ⟨[c], w, rfl, ⟨c, rfl, hall c (List.mem_cons_self _ _)⟩, w.map (fun d => [d]),
        hflat w, ?_⟩
      · intro u hu
        obtain ⟨d, hd, rfl⟩ := List.mem_map.1 hu
        exact ⟨d, rfl, hall d (List.mem_cons_of_mem _ hd)⟩

end RE

theorem emailRE_matches_iff (w : List Char) :
    RE.Matches emailRE w ↔
      ∃ l a b, w = l ++ '@' :: (a ++ '.' :: b) ∧ l ≠ [] ∧ a ≠ [] ∧ b ≠ [] ∧
        (∀ c ∈ l, notSpaceAt c = true) ∧ (∀ c ∈ a, notSpaceAt c = true) ∧
        (∀ c ∈ b, notSpaceAt c = true) := by
  unfold emailRE
  simp only [RE.Matches.eq_4, RE.plus_cls_iff]
  constructor
  · rintro ⟨l, _, rfl, ⟨hl, hl2⟩, _, _, rfl, ⟨c1, rfl, hc1⟩, a, _, rfl, ⟨ha, ha2⟩, _, b, rfl,
      ⟨c2, rfl, hc2⟩, hb, hb2⟩
    simp only [beq_iff_eq] at hc1 hc2
    subst hc1 hc2
    exact ⟨l, a, b, by simp, hl, ha, hb, hl2, ha2, hb2⟩
  · rintro ⟨l, a, b, rfl, hl, ha, hb, hl2, ha2, hb2⟩
    exact ⟨l, _, rfl, ⟨hl, hl2⟩, ['@'], _, rfl, ⟨'@', rfl, by simp⟩, a, _, rfl, ⟨ha, ha2⟩,
      ['.'], b, rfl, ⟨'.', rfl, by simp⟩, hb, hb2⟩

theorem notSpaceAt_iff (c : Char) :
    notSpaceAt c = true ↔ isWhiteSpace c = false ∧ c ≠ '@' := by
  simp [notSpaceAt]

theorem isValidEmailStr_iff (s : String) :
    isValidEmailStr s = true ↔
      (∀ c ∈ s.data, isWhiteSpace c = false) ∧ s.data.count '@' = 1 ∧
      ∃ l d, s.data = l ++ '@' :: d ∧ l ≠ [] ∧ ∃ a b, d = a ++ '.' :: b ∧ a ≠ [] ∧ b ≠ [] := by
  unfold isValidEmailStr
  rw [RE.rmatch_iff, emailRE_matches_iff]
  have hat : isWhiteSpace '@' = false := by decide
  have hdot : isWhiteSpace '.' = false := by decide
  constructor
  · rintro ⟨l, a, b, hw, hl, ha, hb, hl2, ha2, hb2⟩
    simp only [notSpaceAt_iff] at hl2 ha2 hb2
    have cl : l.count '@' = 0 := List.count_eq_zero.2 (fun h => (hl2 _ h).2 rfl)
    have ca : a.count '@' = 0 := List.count_eq_zero.2 (fun h => (ha2 _ h).2 rfl)
    have cb : b.count '@' = 0 := List.count_eq_zero.2 (fun h => (hb2 _ h).2 rfl)
    refine ⟨?_, ?_, l, _, hw, hl, a, b, rfl, ha, hb⟩
    · intro c hc
      rw [hw] at hc
      simp only [List.mem_append, List.mem_cons] at hc
      rcases hc with h | rfl | h | rfl | h
      · exact (hl2 c h).1
      · exact hat
      · exact (ha2 c h).1
      · exact hdot
      · exact (hb2 c h).1
    · rw [hw]
      simp [List.count_append, List.count_cons, cl, ca, cb]
  · rintro ⟨hws, hcount, l, _, hw, hl, a, b, rfl, ha, hb⟩
    rw [hw] at hcount hws
    simp only [List.count_append, List.count_cons, beq_self_eq_true, if_true] at hcount
    have cl : l.count '@' = 0 := by omega
    have ca : a.count '@' = 0 := by omega
    have cb : b.count '@' = 0 := by omega
    refine ⟨l, a, b, hw, hl, ha, hb, ?_, ?_, ?_⟩ <;> intro c hc <;> rw [notSpaceAt_iff]
    · exact ⟨hws c (by simp [hc]), fun h => List.count_eq_zero.1 cl (h ▸ hc)⟩
    · exact ⟨hws c (by simp [hc]), fun h => List.count_eq_zero.1 ca (h ▸ hc)⟩
    · exact ⟨hws c (by simp [hc]), fun h => List.count_eq_zero.1 cb (h ▸ hc)⟩


/-! ## The email validator -/

/-- C1: `isValidEmail` is total on strings (it never throws and yields a boolean), and it yields
`true` exactly when the string has no whitespace character, exactly one `@`, at least one
character before the `@`, and after the `@` a `.` with at least one character on each side. -/
theorem isValidEmail_iff (s : String) :
    isValidEmail (.string s) = .ok (isValidEmailStr s) ∧
    (isValidEmail (.string s) = .ok true ↔
      (∀ c ∈ s.data, isWhiteSpace c = false) ∧ s.data.count '@' = 1 ∧
      ∃ l d, s.data = l ++ '@' :: d ∧ l ≠ [] ∧
        ∃ a b, d = a ++ '.' :: b ∧ a ≠ [] ∧ b ≠ []) := by
  have h : isValidEmail (.string s) = .ok (isValidEmailStr s) := rfl
  refine ⟨h, ?_⟩
  rw [h, ← isValidEmailStr_iff]
  constructor
  · intro h'; injection h'
  · intro h'; rw [h']

/-! ## The handler, case by case -/

theorem toBoolean_string (s : String) : toBoolean (.string s) = true ↔ s ≠ "" := by
  cases s with
  | mk d => cases d <;> simp [toBoolean, String.ext_iff]

theorem isValidEmailStr_empty : isValidEmailStr "" = false := by decide

/-- The run of the handler, read off the source branch by branch. -/
theorem contactHandler_eq (cfg : Config) (t : Transport) (body : JSVal) :
    contactHandler cfg t body =
      match destructure body with
      | .error e => ⟨[serverErrorResponse], [], [e]⟩
      | .ok (name, email, phone, service, message) =>
        if !toBoolean name || !toBoolean email || !toBoolean service || !toBoolean message then
          ⟨[missingResponse], [], []⟩
        else
          match isValidEmail email with
          | .error e => ⟨[serverErrorResponse], [], [e]⟩
          | .ok false => ⟨[invalidResponse], [], []⟩
          | .ok true =>
            match ownerMail cfg name email phone service message with
            | .error e => ⟨[serverErrorResponse], [], [e]⟩
            | .ok m1 =>
              match t 0 with
              | .error e => ⟨[serverErrorResponse], [m1], [e]⟩
              | .ok () =>
                match userMail cfg name email with
                | .error e => ⟨[serverErrorResponse], [m1], [e]⟩
                | .ok m2 =>
                  match t 1 with
                  | .error e => ⟨[serverErrorResponse], [m1, m2], [e]⟩
                  | .ok () => ⟨[okResponse], [m1, m2], []⟩ := by
  unfold contactHandler tryBlock
  cases hd : destructure body with
  | error e => rfl
  | ok v =>
    obtain ⟨name, email, phone, service, message⟩ := v
    dsimp only
    by_cases hc :
        (!toBoolean name || !toBoolean email || !toBoolean service || !toBoolean message) = true
    · rw [if_pos hc, if_pos hc]; rfl
    · rw [if_neg hc, if_neg hc]
      cases hv : isValidEmail email with
      | error e => rfl
      | ok b =>
        cases b with
        | false => rfl
        | true =>
          dsimp only
          cases ho : ownerMail cfg name email phone service message with
          | error e => rfl
          | ok m1 =>
            dsimp only [sendMail, List.length_nil]
            cases h0 : t 0 with
            | error e => rfl
            | ok u =>
              dsimp only [List.nil_append]
              cases hu : userMail cfg name email with
              | error e => rfl
              | ok m2 =>
                dsimp only [sendMail, List.length_singleton]
                cases h1 : t 1 with
                | error e => rfl
                | ok u => rfl

theorem ownerMail_strings (cfg : Config) (name email service message text : String)
    (phone : JSVal) (hp : PhoneText phone text) :
    ownerMail cfg (.string name) (.string email) phone (.string service) (.string message) =
      .ok (ownerMessage cfg name email text service message) := by
  unfold PhoneText at hp
  simp only [ownerMail, toStr, hp, bind, Except.bind, pure, Except.pure, ownerMessage]

theorem userMail_strings (cfg : Config) (name email : String) :
    userMail cfg (.string name) (.string email) = .ok (userMessage cfg name email) := by
  simp only [userMail, toStr, bind, Except.bind, pure, Except.pure, userMessage]

/-- The run of the handler on a submission that passes validation, by the outcome of the two
`sendMail` calls. -/
theorem contactHandler_accepted (cfg : Config) (t : Transport) (body : JSVal)
    (name email service message text : String) (phone : JSVal)
    (hb : HasFields body name email phone service message)
    (hv : PassesValidation name email service message) (hp : PhoneText phone text) :
    contactHandler cfg t body =
      match t 0 with
      | .error e =>
          ⟨[serverErrorResponse], [ownerMessage cfg name email text service message], [e]⟩
      | .ok () =>
        match t 1 with
        | .error e =>
            ⟨[serverErrorResponse],
              [ownerMessage cfg name email text service message, userMessage cfg name email], [e]⟩
        | .ok () =>
            ⟨[okResponse],
              [ownerMessage cfg name email text service message, userMessage cfg name email], []⟩ := by
  obtain ⟨hn, hs, hm, he⟩ := hv
  have hne : email ≠ "" := by
    rintro rfl
    rw [isValidEmailStr_empty] at he
    exact Bool.noConfusion he
  have hc : ¬ ((!toBoolean (.string name) || !toBoolean (.string email) ||
      !toBoolean (.string service) || !toBoolean (.string message)) = true) := by
    rw [(toBoolean_string name).2 hn, (toBoolean_string email).2 hne,
      (toBoolean_string service).2 hs, (toBoolean_string message).2 hm]
    decide
  have hval : isValidEmail (.string email) = .ok true := by
    simp only [isValidEmail, toStr, he]
  unfold HasFields at hb
  rw [contactHandler_eq, hb]
  dsimp only
  rw [if_neg hc, hval]
  dsimp only
  rw [ownerMail_strings cfg name email service message text phone hp, userMail_strings]

theorem phoneText_absent : PhoneText .undefined "-" := rfl

theorem phoneText_empty : PhoneText (.string "") "-" := rfl

theorem phoneText_string (p : String) (h : p ≠ "") : PhoneText (.string p) p := by
  unfold PhoneText JSVal.or
  rw [(toBoolean_string p).2 h]
  rfl

theorem phoneText_of_convertible (phone : JSVal)
    (h : convertible (phone.or (.string "-")) = true) : ∃ text, PhoneText phone text := by
  unfold convertible at h
  unfold PhoneText
  cases hs : toStr (phone.or (.string "-")) with
  | error e => rw [hs] at h; exact Bool.noConfusion h
  | ok text => exact ⟨text, rfl⟩

theorem convertible_or_primitive (p : JSVal)
    (hprim : p = .undefined ∨ p = .null ∨ (∃ b, p = .bool b) ∨ (∃ n, p = .number n) ∨
      (∃ s, p = .string s)) :
    convertible (p.or (.string "-")) = true := by
  rcases hprim with rfl | rfl | ⟨b, rfl⟩ | ⟨n, rfl⟩ | ⟨s, rfl⟩
  · rfl
  · rfl
  · cases b <;> rfl
  · unfold JSVal.or
    cases h : toBoolean (.number n) <;> rfl
  · unfold JSVal.or
    cases h : toBoolean (.string s) <;> rfl

theorem ownerMail_fields (cfg : Config) (name email phone service message : JSVal) (m1 : Mail)
    (h : ownerMail cfg name email phone service message = .ok m1) :
    m1.to_ = envVal cfg.OWNER_EMAIL ∧ m1.replyTo = some email := by
  revert h
  unfold ownerMail
  cases toStr name <;> cases toStr email <;> cases toStr (phone.or (.string "-")) <;>
    cases toStr service <;> cases toStr message <;>
    simp only [bind, Except.bind, pure, Except.pure] <;> intro h
  all_goals first
    | exact Except.noConfusion h
    | (injection h with h; subst h; exact ⟨rfl, rfl⟩)

theorem userMail_fields (cfg : Config) (name email : JSVal) (m2 : Mail)
    (h : userMail cfg name email = .ok m2) :
    m2.to_ = email ∧ m2.replyTo = none ∧ m2.subject = "We received your request" := by
  revert h
  unfold userMail
  cases toStr name <;> simp only [bind, Except.bind, pure, Except.pure] <;> intro h
  · exact Except.noConfusion h
  · injection h with h; subst h; exact ⟨rfl, rfl, rfl⟩

/-! ## The contact handler -/

/-- C2: when at least one of `name`, `email`, `service`, `message` is absent or the empty
string, whatever the other fields are, the handler answers exactly
`400 {error: "Required fields missing"}` and hands no message to the transport. -/
theorem missing_field_rejected (cfg : Config) (t : Transport)
    (body name email phone service message : JSVal)
    (hb : destructure body = .ok (name, email, phone, service, message))
    (hmiss : AbsentOrEmpty name ∨ AbsentOrEmpty email ∨ AbsentOrEmpty service ∨
      AbsentOrEmpty message) :
    (contactHandler cfg t body).responses =
        [⟨400, .object [("error", .string "Required fields missing")]⟩] ∧
      (contactHandler cfg t body).sent = [] := by
  have hfalse : ∀ v, AbsentOrEmpty v → toBoolean v = false := by
    rintro v (rfl | rfl) <;> rfl
  have hc : (!toBoolean name || !toBoolean email || !toBoolean service ||
      !toBoolean message) = true := by
    rcases hmiss with h | h | h | h <;> simp [hfalse _ h]
  rw [contactHandler_eq, hb]
  dsimp only
  rw [if_pos hc]
  exact ⟨rfl, rfl⟩

/-- C2 at a body whose `service` is empty, whose `phone` is absent and whose email is not even
valid. -/
theorem missing_field_rejected_witness :
    (AbsentOrEmpty (.string "Jane") ∨ AbsentOrEmpty (.string "not-an-email") ∨
        AbsentOrEmpty (.string "") ∨ AbsentOrEmpty (.string "Hello")) ∧
      (contactHandler sampleConfig allOk
          (mkBody (.string "Jane") (.string "not-an-email") .undefined (.string "")
            (.string "Hello"))).responses =
        [⟨400, .object [("error", .string "Required fields missing")]⟩] ∧
      (contactHandler sampleConfig allOk
          (mkBody (.string "Jane") (.string "not-an-email") .undefined (.string "")
            (.string "Hello"))).sent = [] :=
  ⟨Or.inr (Or.inr (Or.inl (Or.inr rfl))),
    missing_field_rejected sampleConfig allOk _ _ _ _ _ _ rfl
      (Or.inr (Or.inr (Or.inl (Or.inr rfl))))⟩

/-- C3: when `name`, `service` and `message` are truthy (non-empty strings in particular) and
`email` is a non-empty string that `isValidEmail` rejects, the handler answers exactly
`400 {error: "Invalid email"}` and hands no message to the transport. -/
theorem invalid_email_rejected (cfg : Config) (t : Transport)
    (body name phone service message : JSVal) (email : String)
    (hb : destructure body = .ok (name, .string email, phone, service, message))
    (hn : toBoolean name = true) (hs : toBoolean service = true)
    (hm : toBoolean message = true) (hne : email ≠ "")
    (hbad : isValidEmail (.string email) = .ok false) :
    (contactHandler cfg t body).responses =
        [⟨400, .object [("error", .string "Invalid email")]⟩] ∧
      (contactHandler cfg t body).sent = [] := by
  have hc : ¬ ((!toBoolean name || !toBoolean (.string email) || !toBoolean service ||
      !toBoolean message) = true) := by
    rw [hn, hs, hm, (toBoolean_string email).2 hne]
    decide
  rw [contactHandler_eq, hb]
  dsimp only
  rw [if_neg hc, hbad]
  exact ⟨rfl, rfl⟩

/-- C3 at the four emails `abc`, `a@b`, `@b.com` and `a@.com`. -/
theorem invalid_email_rejected_witness :
    (isValidEmail (.string "abc") = .ok false ∧ isValidEmail (.string "a@b") = .ok false ∧
      isValidEmail (.string "@b.com") = .ok false ∧
      isValidEmail (.string "a@.com") = .ok false) ∧
    (∀ email ∈ ["abc", "a@b", "@b.com", "a@.com"],
      (contactHandler sampleConfig allOk
          (mkBody (.string "Jane") (.string email) .undefined (.string "Consulting")
            (.string "Hello"))).responses =
        [⟨400, .object [("error", .string "Invalid email")]⟩] ∧
      (contactHandler sampleConfig allOk
          (mkBody (.string "Jane") (.string email) .undefined (.string "Consulting")
            (.string "Hello"))).sent = []) := by
  refine ⟨⟨by decide, by decide, by decide, by decide⟩, ?_⟩
  intro email hmem
  simp only [List.mem_cons, List.mem_singleton, List.not_mem_nil, or_false] at hmem
  rcases hmem with rfl | rfl | rfl | rfl
  · exact invalid_email_rejected sampleConfig allOk _ _ _ _ _ "abc" rfl rfl rfl rfl
      (by decide) (by decide)
  · exact invalid_email_rejected sampleConfig allOk _ _ _ _ _ "a@b" rfl rfl rfl rfl
      (by decide) (by decide)
  · exact invalid_email_rejected sampleConfig allOk _ _ _ _ _ "@b.com" rfl rfl rfl rfl
      (by decide) (by decide)
  · exact invalid_email_rejected sampleConfig allOk _ _ _ _ _ "a@.com" rfl rfl rfl rfl
      (by decide) (by decide)

/-- C4, as stated, fails: the submission of Jane with an object that shadows `toString` for
`phone` passes validation (the three texts are non-empty, the email is a string that
`isValidEmail` accepts) and both calls of the transport would succeed, yet no `sendMail` call is
made and the response is `500 {error: "Server error"}`. -/
theorem odd_phone_no_dispatch :
    HasFields janeOddPhone "Jane" "jane@example.com"
        (.object [("toString", .number ⟨true, "1"⟩)]) "Consulting" "Hello" ∧
    PassesValidation "Jane" "jane@example.com" "Consulting" "Hello" ∧
    allOk 0 = .ok () ∧ allOk 1 = .ok () ∧
    (contactHandler sampleConfig allOk janeOddPhone).sent = [] ∧
    (contactHandler sampleConfig allOk janeOddPhone).responses =
      [⟨500, .object [("error", .string "Server error")]⟩] ∧
    ¬ ((contactHandler sampleConfig allOk janeOddPhone).sent.length = 2 ∧
        (contactHandler sampleConfig allOk janeOddPhone).responses =
          [⟨200, .object [("ok", .bool true)]⟩]) := by
  refine ⟨rfl, by decide, rfl, rfl, rfl, rfl, ?_⟩
  rintro ⟨hlen, _⟩
  exact absurd hlen (by decide)

/-- C4, amended: for a submission that passes validation and whose `phone || "-"` converts to a
string, and a transport whose two calls succeed, the handler makes exactly two `sendMail` calls,
in this order: the first to the configured owner address, with reply-to the submitted email and
subject `New Contact: ` followed by the name; the second to the submitted email, with the fixed
subject and no reply-to.  The response is `200 {ok: true}`. -/
theorem valid_submission_dispatch (cfg : Config) (t : Transport) (body : JSVal)
    (name email service message : String) (phone : JSVal)
    (hb : HasFields body name email phone service message)
    (hv : PassesValidation name email service message)
    (hp : convertible (phone.or (.string "-")) = true)
    (h0 : t 0 = .ok ()) (h1 : t 1 = .ok ()) :
    (∃ m1 m2, (contactHandler cfg t body).sent = [m1, m2] ∧
      m1.to_ = envVal cfg.OWNER_EMAIL ∧ m1.replyTo = some (.string email) ∧
      m1.subject = "New Contact: " ++ name ∧
      m2.to_ = .string email ∧ m2.replyTo = none ∧
      m2.subject = "We received your request") ∧
    (contactHandler cfg t body).responses = [⟨200, .object [("ok", .bool true)]⟩] := by
  obtain ⟨text, htext⟩ := phoneText_of_convertible phone hp
  rw [contactHandler_accepted cfg t body name email service message text phone hb hv htext, h0]
  dsimp only
  rw [h1]
  exact ⟨⟨_, _, rfl, rfl, rfl, rfl, rfl, rfl, rfl⟩, rfl⟩

/-- C4, amended, at the submission of Jane, with the owner address `owner@site.test`. -/
theorem valid_submission_dispatch_witness :
    (HasFields janeBody "Jane" "jane@example.com" (.string "555-1234") "Consulting" "Hello" ∧
      PassesValidation "Jane" "jane@example.com" "Consulting" "Hello" ∧
      convertible ((JSVal.string "555-1234").or (.string "-")) = true ∧
      allOk 0 = .ok () ∧ allOk 1 = .ok ()) ∧
    (∃ m1 m2, (contactHandler sampleConfig allOk janeBody).sent = [m1, m2] ∧
      m1.to_ = .string "owner@site.test" ∧ m1.replyTo = some (.string "jane@example.com") ∧
      m1.subject = "New Contact: Jane" ∧
      m2.to_ = .string "jane@example.com" ∧ m2.replyTo = none ∧
      m2.subject = "We received your request") ∧
    (contactHandler sampleConfig allOk janeBody).responses =
      [⟨200, .object [("ok", .bool true)]⟩] :=
  ⟨⟨rfl, by decide, rfl, rfl, rfl⟩,
    valid_submission_dispatch sampleConfig allOk janeBody "Jane" "jane@example.com" "Consulting"
      "Hello" (.string "555-1234") rfl (by decide) rfl rfl rfl⟩

/-- C5: for a submission that passes validation, when the owner-notification `sendMail` call is
rejected, for whatever reason, that call is the only one made (the acknowledgment is never
attempted) and the response is exactly `500 {error: "Server error"}`. -/
theorem owner_failure_stops (cfg : Config) (t : Transport) (body : JSVal)
    (name email service message text : String) (phone : JSVal) (e : JSErr)
    (hb : HasFields body name email phone service message)
    (hv : PassesValidation name email service message) (hp : PhoneText phone text)
    (h0 : t 0 = .error e) :
    (∃ m1, (contactHandler cfg t body).sent = [m1] ∧ m1.to_ = envVal cfg.OWNER_EMAIL ∧
      m1.subject = "New Contact: " ++ name) ∧
    (contactHandler cfg t body).sent.length = 1 ∧
    (contactHandler cfg t body).responses =
      [⟨500, .object [("error", .string "Server error")]⟩] := by
  rw [contactHandler_accepted cfg t body name email service message text phone hb hv hp, h0]
  exact ⟨⟨_, rfl, rfl, rfl⟩, rfl, rfl⟩

/-- C5 at the submission of Jane, with a transport that rejects every call. -/
theorem owner_failure_stops_witness :
    (HasFields janeBody "Jane" "jane@example.com" (.string "555-1234") "Consulting" "Hello" ∧
      PassesValidation "Jane" "jane@example.com" "Consulting" "Hello" ∧
      PhoneText (.string "555-1234") "555-1234" ∧
      allFail "relay down" 0 = .error (.sendFailure "relay down")) ∧
    (∃ m1, (contactHandler sampleConfig (allFail "relay down") janeBody).sent = [m1] ∧
      m1.to_ = .string "owner@site.test" ∧ m1.subject = "New Contact: Jane") ∧
    (contactHandler sampleConfig (allFail "relay down") janeBody).sent.length = 1 ∧
    (contactHandler sampleConfig (allFail "relay down") janeBody).responses =
      [⟨500, .object [("error", .string "Server error")]⟩] :=
  ⟨⟨rfl, by decide, rfl, rfl⟩,
    owner_failure_stops sampleConfig (allFail "relay down") janeBody "Jane" "jane@example.com"
      "Consulting" "Hello" "555-1234" (.string "555-1234") (.sendFailure "relay down")
      rfl (by decide) rfl rfl⟩

/-- C7: for a submission that passes validation, a run in which a `sendMail` call is rejected
answers exactly `500 {error: "Server error"}`, whether the rejected call is the first or the
second and whatever the rejection reason: any two such runs give the same response. -/
theorem dispatch_failure_uniform (cfg : Config) (t t' : Transport) (body : JSVal)
    (name email service message text : String) (phone : JSVal)
    (hb : HasFields body name email phone service message)
    (hv : PassesValidation name email service message) (hp : PhoneText phone text)
    (hf : SomeSendFails t) (hf' : SomeSendFails t') :
    (contactHandler cfg t body).responses =
        [⟨500, .object [("error", .string "Server error")]⟩] ∧
      (contactHandler cfg t' body).responses = (contactHandler cfg t body).responses := by
  have key : ∀ u : Transport, SomeSendFails u →
      (contactHandler cfg u body).responses =
        [⟨500, .object [("error", .string "Server error")]⟩] := by
    intro u hu
    rw [contactHandler_accepted cfg u body name email service message text phone hb hv hp]
    rcases hu with h0 | ⟨h0, h1⟩
    · cases h : u 0 with
      | error e => rfl
      | ok v => rw [h] at h0; exact Bool.noConfusion h0
    · cases h : u 0 with
      | error e => rw [h] at h0; exact Bool.noConfusion h0
      | ok v =>
        dsimp only
        cases h' : u 1 with
        | error e => rfl
        | ok v' => rw [h'] at h1; exact Bool.noConfusion h1
  rw [key t hf, key t' hf']
  exact ⟨rfl, rfl⟩

/-- C7 at the submission of Jane: the first call rejected with one reason, against the second
call rejected with another. -/
theorem dispatch_failure_uniform_witness :
    (HasFields janeBody "Jane" "jane@example.com" (.string "555-1234") "Consulting" "Hello" ∧
      PassesValidation "Jane" "jane@example.com" "Consulting" "Hello" ∧
      PhoneText (.string "555-1234") "555-1234" ∧
      SomeSendFails (allFail "relay down") ∧ SomeSendFails (secondFails "mailbox full")) ∧
    (contactHandler sampleConfig (allFail "relay down") janeBody).responses =
        [⟨500, .object [("error", .string "Server error")]⟩] ∧
      (contactHandler sampleConfig (secondFails "mailbox full") janeBody).responses =
        (contactHandler sampleConfig (allFail "relay down") janeBody).responses :=
  ⟨⟨rfl, by decide, rfl, by decide, by decide⟩,
    dispatch_failure_uniform sampleConfig (allFail "relay down") (secondFails "mailbox full")
      janeBody "Jane" "jane@example.com" "Consulting" "Hello" "555-1234" (.string "555-1234")
      rfl (by decide) rfl (by decide) (by decide)⟩

theorem accepted_sent_head (cfg : Config) (t : Transport) (body : JSVal)
    (name email service message text : String) (phone : JSVal)
    (hb : HasFields body name email phone service message)
    (hv : PassesValidation name email service message) (hp : PhoneText phone text) :
    ∃ rest, (contactHandler cfg t body).sent =
      ownerMessage cfg name email text service message :: rest := by
  rw [contactHandler_accepted cfg t body name email service message text phone hb hv hp]
  cases t 0 with
  | error e => exact ⟨_, rfl⟩
  | ok u =>
    cases t 1 with
    | error e => exact ⟨_, rfl⟩
    | ok u' => exact ⟨_, rfl⟩

theorem phone_line_infix (name email phone service message : String) :
    ("<p><b>Phone:</b> " ++ phone ++ "</p>").data <:+:
      (ownerHtml name email phone service message).data := by
  refine ⟨("\n        <h3>New Contact Request</h3>\n        <p><b>Name:</b> " ++ name ++
      "</p>\n        <p><b>Email:</b> " ++ email ++ "</p>\n        ").data,
    ("\n        <p><b>Service:</b> " ++ service ++ "</p>\n        <p><b>Message:</b> " ++
      message ++ "</p>\n      ").data, ?_⟩
  have h1 : ("</p>\n        <p><b>Phone:</b> " : String) =
      "</p>\n        " ++ "<p><b>Phone:</b> " := by decide
  have h2 : ("</p>\n        <p><b>Service:</b> " : String) =
      "</p>" ++ "\n        <p><b>Service:</b> " := by decide
  unfold ownerHtml
  rw [h1, h2]
  simp only [String.data_append, List.append_assoc]

/-- C8: for a submission that passes validation, the HTML body of the owner notification is the
template with `-` in the phone position when `phone` is absent or the empty string, so that it
contains the line `<p><b>Phone:</b> -</p>`; when `phone` is a non-empty string, that string
stands in the phone position instead. -/
theorem phone_placeholder (cfg : Config) (t : Transport) (body : JSVal)
    (name email service message : String) (phone : JSVal)
    (hb : HasFields body name email phone service message)
    (hv : PassesValidation name email service message) :
    (phone = .undefined ∨ phone = .string "" →
      ∃ m1 rest, (contactHandler cfg t body).sent = m1 :: rest ∧
        m1.html = ownerHtml name email "-" service message ∧
        ("<p><b>Phone:</b> -</p>" : String).data <:+: m1.html.data) ∧
    (∀ p : String, phone = .string p → p ≠ "" →
      ∃ m1 rest, (contactHandler cfg t body).sent = m1 :: rest ∧
        m1.html = ownerHtml name email p service message ∧
        ("<p><b>Phone:</b> " ++ p ++ "</p>").data <:+: m1.html.data) := by
  constructor
  · intro hphone
    have hp : PhoneText phone "-" := by
      rcases hphone with rfl | rfl
      · exact phoneText_absent
      · exact phoneText_empty
    obtain ⟨rest, hrest⟩ :=
      accepted_sent_head cfg t body name email service message "-" phone hb hv hp
    exact ⟨_, rest, hrest, rfl, phone_line_infix name email "-" service message⟩
  · intro p hphone hne
    have hp : PhoneText phone p := hphone ▸ phoneText_string p hne
    obtain ⟨rest, hrest⟩ :=
      accepted_sent_head cfg t body name email service message p phone hb hv hp
    exact ⟨_, rest, hrest, rfl, phone_line_infix name email p service message⟩

/-- C8 at the submission of Jane without a phone: the owner notification carries the placeholder
line. -/
theorem phone_placeholder_witness :
    (HasFields janeNoPhone "Jane" "jane@example.com" .undefined "Consulting" "Hello" ∧
      PassesValidation "Jane" "jane@example.com" "Consulting" "Hello") ∧
    ∃ m1 rest, (contactHandler sampleConfig allOk janeNoPhone).sent = m1 :: rest ∧
      m1.html = ownerHtml "Jane" "jane@example.com" "-" "Consulting" "Hello" ∧
      ("<p><b>Phone:</b> -</p>" : String).data <:+: m1.html.data :=
  ⟨⟨rfl, by decide⟩,
    (phone_placeholder sampleConfig allOk janeNoPhone "Jane" "jane@example.com" "Consulting"
      "Hello" .undefined rfl (by decide)).1 (Or.inl rfl)⟩

theorem ownerHtml_infix (name email phone service message : String) :
    name.data <:+: (ownerHtml name email phone service message).data ∧
    email.data <:+: (ownerHtml name email phone service message).data ∧
    phone.data <:+: (ownerHtml name email phone service message).data ∧
    service.data <:+: (ownerHtml name email phone service message).data ∧
    message.data <:+: (ownerHtml name email phone service message).data := by
  unfold ownerHtml
  refine ⟨?_, ?_, ?_, ?_, ?_⟩
  · exact ⟨"\n        <h3>New Contact Request</h3>\n        <p><b>Name:</b> ".data,
      ("</p>\n        <p><b>Email:</b> " ++ email ++ "</p>\n        <p><b>Phone:</b> " ++ phone ++
        "</p>\n        <p><b>Service:</b> " ++ service ++ "</p>\n        <p><b>Message:</b> " ++
        message ++ "</p>\n      ").data, by simp only [String.data_append, List.append_assoc]⟩
  · exact ⟨("\n        <h3>New Contact Request</h3>\n        <p><b>Name:</b> " ++ name ++
        "</p>\n        <p><b>Email:</b> ").data,
      ("</p>\n        <p><b>Phone:</b> " ++ phone ++
        "</p>\n        <p><b>Service:</b> " ++ service ++ "</p>\n        <p><b>Message:</b> " ++
        message ++ "</p>\n      ").data, by simp only [String.data_append, List.append_assoc]⟩
  · exact ⟨("\n        <h3>New Contact Request</h3>\n        <p><b>Name:</b> " ++ name ++
        "</p>\n        <p><b>Email:</b> " ++ email ++ "</p>\n        <p><b>Phone:</b> ").data,
      ("</p>\n        <p><b>Service:</b> " ++ service ++ "</p>\n        <p><b>Message:</b> " ++
        message ++ "</p>\n      ").data, by simp only [String.data_append, List.append_assoc]⟩
  · exact ⟨("\n        <h3>New Contact Request</h3>\n        <p><b>Name:</b> " ++ name ++
        "</p>\n        <p><b>Email:</b> " ++ email ++ "</p>\n        <p><b>Phone:</b> " ++ phone ++
        "</p>\n        <p><b>Service:</b> ").data,
      ("</p>\n        <p><b>Message:</b> " ++
        message ++ "</p>\n      ").data, by simp only [String.data_append, List.append_assoc]⟩
  · exact ⟨("\n        <h3>New Contact Request</h3>\n        <p><b>Name:</b> " ++ name ++
        "</p>\n        <p><b>Email:</b> " ++ email ++ "</p>\n        <p><b>Phone:</b> " ++ phone ++
        "</p>\n        <p><b>Service:</b> " ++ service ++ "</p>\n        <p><b>Message:</b> ").data,
      ("</p>\n      " : String).data, by simp only [String.data_append, List.append_assoc]⟩

theorem userHtml_infix (name fromName : String) :
    name.data <:+: (userHtml name fromName).data := by
  unfold userHtml
  exact ⟨"\n        <p>Hi ".data,
    (",</p>\n        <p>Thanks for contacting us. We’ll get back to you soon.</p>\n        <p>— " ++
      fromName ++ "</p>\n      ").data, by simp only [String.data_append, List.append_assoc]⟩

/-- C10: for a submission that passes validation, the owner notification has the subject
`New Contact: ` followed by the unmodified name, and its HTML body is exactly the fixed template
with the submitted name, email, phone text, service and message inserted as they are, so each of
them occurs in the body unchanged; when the first call succeeds, the acknowledgment body is the
fixed template around the unmodified name. -/
theorem verbatim_interpolation (cfg : Config) (t : Transport) (body : JSVal)
    (name email service message text : String) (phone : JSVal)
    (hb : HasFields body name email phone service message)
    (hv : PassesValidation name email service message) (hp : PhoneText phone text) :
    (∃ m1 rest, (contactHandler cfg t body).sent = m1 :: rest ∧
      m1.subject = "New Contact: " ++ name ∧
      m1.html =
        "\n        <h3>New Contact Request</h3>\n        <p><b>Name:</b> " ++ name ++
        "</p>\n        <p><b>Email:</b> " ++ email ++
        "</p>\n        <p><b>Phone:</b> " ++ text ++
        "</p>\n        <p><b>Service:</b> " ++ service ++
        "</p>\n        <p><b>Message:</b> " ++ message ++
        "</p>\n      " ∧
      name.data <:+: m1.html.data ∧ email.data <:+: m1.html.data ∧
      text.data <:+: m1.html.data ∧ service.data <:+: m1.html.data ∧
      message.data <:+: m1.html.data) ∧
    (t 0 = .ok () →
      ∃ m1 m2, (contactHandler cfg t body).sent = [m1, m2] ∧
        m2.html =
          "\n        <p>Hi " ++ name ++
          ",</p>\n        <p>Thanks for contacting us. We’ll get back to you soon.</p>\n        <p>— " ++
          envText cfg.FROM_NAME ++ "</p>\n      " ∧
        name.data <:+: m2.html.data) := by
  constructor
  · obtain ⟨rest, hrest⟩ :=
      accepted_sent_head cfg t body name email service message text phone hb hv hp
    obtain ⟨h1, h2, h3, h4, h5⟩ := ownerHtml_infix name email text service message
    exact ⟨_, rest, hrest, rfl, rfl, h1, h2, h3, h4, h5⟩
  · intro h0
    rw [contactHandler_accepted cfg t body name email service message text phone hb hv hp, h0]
    dsimp only
    cases t 1 with
    | error e => exact ⟨_, _, rfl, rfl, userHtml_infix name _⟩
    | ok u => exact ⟨_, _, rfl, rfl, userHtml_infix name _⟩

/-- C10 at a submission whose message is `<script>x</script>`: the markup reaches the transport
unchanged. -/
theorem verbatim_interpolation_witness :
    (HasFields scriptBody "Jane" "jane@example.com" .undefined "Consulting"
        "<script>x</script>" ∧
      PassesValidation "Jane" "jane@example.com" "Consulting" "<script>x</script>" ∧
      PhoneText .undefined "-") ∧
    ∃ m1 rest, (contactHandler sampleConfig allOk scriptBody).sent = m1 :: rest ∧
      m1.subject = "New Contact: Jane" ∧
      ("<script>x</script>" : String).data <:+: m1.html.data := by
  refine ⟨⟨rfl, by decide, rfl⟩, ?_⟩
  obtain ⟨m1, rest, hsent, hsubj, _, _, _, _, _, hmsg⟩ :=
    (verbatim_interpolation sampleConfig allOk scriptBody "Jane" "jane@example.com" "Consulting"
      "<script>x</script>" "-" .undefined rfl (by decide) rfl).1
  exact ⟨m1, rest, hsent, hsubj, hmsg⟩

/-! ## Runs on arbitrary bodies -/

theorem userMail_ok_of_ownerMail (cfg : Config) (name email phone service message : JSVal)
    (m1 : Mail) (h : ownerMail cfg name email phone service message = .ok m1) :
    ∃ m2, userMail cfg name email = .ok m2 := by
  unfold ownerMail at h
  unfold userMail
  cases hn : toStr name with
  | error e => rw [hn] at h; exact Except.noConfusion h
  | ok n => exact ⟨_, rfl⟩

theorem ownerMail_ok_iff (cfg : Config) (name email phone service message : JSVal) :
    (∃ m1, ownerMail cfg name email phone service message = .ok m1) ↔
      (convertible name = true ∧ convertible email = true ∧
        convertible (phone.or (.string "-")) = true ∧ convertible service = true ∧
        convertible message = true) := by
  unfold ownerMail convertible
  cases toStr name <;> cases toStr email <;> cases toStr (phone.or (.string "-")) <;>
    cases toStr service <;> cases toStr message <;>
    simp [bind, Except.bind, pure, Except.pure]

theorem convertible_of_isValidEmail (email : JSVal) (b : Bool)
    (h : isValidEmail email = .ok b) : convertible email = true := by
  unfold isValidEmail at h
  unfold convertible
  cases hs : toStr email with
  | error e => rw [hs] at h; exact Except.noConfusion h
  | ok s => rfl

/-- The responses of a run, as a function of the checks on the four required fields, of whether
the interpolated values convert to strings, and of the outcomes of the two calls. -/
theorem responses_eq (cfg : Config) (t : Transport)
    (body name email phone service message : JSVal)
    (hb : destructure body = .ok (name, email, phone, service, message)) :
    (contactHandler cfg t body).responses =
      if (!toBoolean name || !toBoolean email || !toBoolean service || !toBoolean message) = true
      then [missingResponse]
      else
        match isValidEmail email with
        | .error _ => [serverErrorResponse]
        | .ok false => [invalidResponse]
        | .ok true =>
          if (convertible name && convertible (phone.or (.string "-")) && convertible service &&
              convertible message) = true then
            match t 0 with
            | .error _ => [serverErrorResponse]
            | .ok () =>
              match t 1 with
              | .error _ => [serverErrorResponse]
              | .ok () => [okResponse]
          else [serverErrorResponse] := by
  rw [contactHandler_eq, hb]
  dsimp only
  by_cases hc :
      (!toBoolean name || !toBoolean email || !toBoolean service || !toBoolean message) = true
  · rw [if_pos hc, if_pos hc]
  · rw [if_neg hc, if_neg hc]
    cases hv : isValidEmail email with
    | error e => rfl
    | ok b =>
      cases b with
      | false => rfl
      | true =>
        dsimp only
        have hce := convertible_of_isValidEmail email true hv
        have hiff := ownerMail_ok_iff cfg name email phone service message
        cases ho : ownerMail cfg name email phone service message with
        | error e =>
          have hno : ¬ ((convertible name && convertible (phone.or (.string "-")) &&
              convertible service && convertible message) = true) := by
            intro hall
            simp only [Bool.and_eq_true] at hall
            obtain ⟨m1, hm1⟩ := hiff.2 ⟨hall.1.1.1, hce, hall.1.1.2, hall.1.2, hall.2⟩
            rw [ho] at hm1
            exact Except.noConfusion hm1
          rw [if_neg hno]
        | ok m1 =>
          have hyes : (convertible name && convertible (phone.or (.string "-")) &&
              convertible service && convertible message) = true := by
            obtain ⟨h1, _, h3, h4, h5⟩ := hiff.1 ⟨m1, ho⟩
            rw [h1, h3, h4, h5]
            rfl
          obtain ⟨m2, hm2⟩ := userMail_ok_of_ownerMail cfg name email phone service message m1 ho
          rw [if_pos hyes, hm2]
          dsimp only
          cases t 0 with
          | error e => rfl
          | ok u =>
            dsimp only
            cases t 1 with
            | error e => rfl
            | ok u' => rfl

/-- C6, as stated, fails: on the submission of Jane with a transport that rejects the first
call, the run is neither a 400 without a call nor a run with both messages attempted; and the
same holds when `phone` is an object that cannot be converted to a string. -/
theorem owner_rejected_run_shape :
    ¬ RejectedOrBothAttempted (contactHandler sampleConfig (allFail "relay down") janeBody) ∧
    ¬ RejectedOrBothAttempted (contactHandler sampleConfig allOk janeOddPhone) := by
  constructor <;> decide

/-- C6, amended: every run ends in one of four shapes.  Either the response has status 400 and
no `sendMail` call was made.  Or both messages were handed to the transport, the owner
notification first and the acknowledgment second, the first call having succeeded; the response
is then `200 {ok: true}` when the second call succeeds and `500 {error: "Server error"}` when
it is rejected.  Or only the owner notification was handed over, that call was rejected, and
the response is `500 {error: "Server error"}`.  Or no call was made and the response is
`500 {error: "Server error"}`, a value having been thrown by the destructuring of the body, by
`isValidEmail`, or by the construction of the owner notification. -/
theorem run_shapes (cfg : Config) (t : Transport) (body : JSVal) :
    ((contactHandler cfg t body).responses.map Response.status = [400] ∧
      (contactHandler cfg t body).sent = []) ∨
    (∃ name email phone service message m1 m2,
      destructure body = .ok (name, email, phone, service, message) ∧
      ownerMail cfg name email phone service message = .ok m1 ∧
      userMail cfg name email = .ok m2 ∧
      m1.to_ = envVal cfg.OWNER_EMAIL ∧ m1.replyTo = some email ∧
      m2.to_ = email ∧ m2.replyTo = none ∧ m2.subject = "We received your request" ∧
      (contactHandler cfg t body).sent = [m1, m2] ∧ t 0 = .ok () ∧
      ((t 1 = .ok () ∧
          (contactHandler cfg t body).responses = [⟨200, .object [("ok", .bool true)]⟩]) ∨
        ((∃ e, t 1 = .error e) ∧
          (contactHandler cfg t body).responses =
            [⟨500, .object [("error", .string "Server error")]⟩]))) ∨
    (∃ name email phone service message m1 e,
      destructure body = .ok (name, email, phone, service, message) ∧
      ownerMail cfg name email phone service message = .ok m1 ∧
      m1.to_ = envVal cfg.OWNER_EMAIL ∧ m1.replyTo = some email ∧
      (contactHandler cfg t body).sent = [m1] ∧ t 0 = .error e ∧
      (contactHandler cfg t body).responses =
        [⟨500, .object [("error", .string "Server error")]⟩]) ∨
    ((contactHandler cfg t body).responses =
        [⟨500, .object [("error", .string "Server error")]⟩] ∧
      (contactHandler cfg t body).sent = [] ∧
      ∃ e, (contactHandler cfg t body).logged = [e] ∧
        (destructure body = .error e ∨
          ∃ name email phone service message,
            destructure body = .ok (name, email, phone, service, message) ∧
            (isValidEmail email = .error e ∨
              ownerMail cfg name email phone service message = .error e))) := by
  rw [contactHandler_eq]
  cases hd : destructure body with
  | error e => exact Or.inr (Or.inr (Or.inr ⟨rfl, rfl, e, rfl, Or.inl rfl⟩))
  | ok v =>
    obtain ⟨name, email, phone, service, message⟩ := v
    dsimp only
    by_cases hc :
        (!toBoolean name || !toBoolean email || !toBoolean service || !toBoolean message) = true
    · rw [if_pos hc]
      exact Or.inl ⟨rfl, rfl⟩
    · rw [if_neg hc]
      cases hv : isValidEmail email with
      | error e =>
        exact Or.inr (Or.inr (Or.inr ⟨rfl, rfl, e, rfl,
          Or.inr ⟨name, email, phone, service, message, rfl, Or.inl hv⟩⟩))
      | ok b =>
        cases b with
        | false => exact Or.inl ⟨rfl, rfl⟩
        | true =>
          dsimp only
          cases ho : ownerMail cfg name email phone service message with
          | error e =>
            exact Or.inr (Or.inr (Or.inr ⟨rfl, rfl, e, rfl,
              Or.inr ⟨name, email, phone, service, message, rfl, Or.inr ho⟩⟩))
          | ok m1 =>
            obtain ⟨m2, hm2⟩ :=
              userMail_ok_of_ownerMail cfg name email phone service message m1 ho
            obtain ⟨ho1, ho2⟩ := ownerMail_fields cfg name email phone service message m1 ho
            obtain ⟨hu1, hu2, hu3⟩ := userMail_fields cfg name email m2 hm2
            rw [hm2]
            dsimp only
            cases h0 : t 0 with
            | error e =>
              exact Or.inr (Or.inr (Or.inl
                ⟨name, email, phone, service, message, m1, e, rfl, ho, ho1, ho2, rfl, rfl,
                  rfl⟩))
            | ok u =>
              dsimp only
              cases h1 : t 1 with
              | error e =>
                exact Or.inr (Or.inl
                  ⟨name, email, phone, service, message, m1, m2, rfl, ho, hm2, ho1, ho2, hu1,
                    hu2, hu3, rfl, rfl, Or.inr ⟨⟨e, rfl⟩, rfl⟩⟩)
              | ok u' =>
                exact Or.inr (Or.inl
                  ⟨name, email, phone, service, message, m1, m2, rfl, ho, hm2, ho1, ho2, hu1,
                    hu2, hu3, rfl, rfl, Or.inl ⟨rfl, rfl⟩⟩)

/-- C9, as stated, fails: with `phone` an object that shadows `toString`, the four required
fields are truthy, the email is valid and both calls would succeed, yet the response is not
`200 {ok: true}`; and it differs from the response to the same submission with a string for
`phone`. -/
theorem response_depends_on_phone :
    ¬ ((contactHandler sampleConfig allOk janeOddPhone).responses =
          [⟨200, .object [("ok", .bool true)]⟩] ↔
        (toBoolean (.string "Jane") = true ∧ toBoolean (.string "jane@example.com") = true ∧
          toBoolean (.string "Consulting") = true ∧ toBoolean (.string "Hello") = true ∧
          isValidEmail (.string "jane@example.com") = .ok true ∧
          allOk 0 = .ok () ∧ allOk 1 = .ok ())) ∧
    (contactHandler sampleConfig allOk janeOddPhone).responses ≠
      (contactHandler sampleConfig allOk janeBody).responses := by
  constructor
  · intro h
    have h200 := h.2 ⟨rfl, rfl, rfl, rfl, by decide, rfl, rfl⟩
    exact absurd (congrArg (fun l => l.map Response.status) h200) (by decide)
  · intro h
    exact absurd (congrArg (fun l => l.map Response.status) h) (by decide)

/-- C9, amended: the handler writes exactly one response, one of the four; it is
`200 {ok: true}` exactly when the four required fields are truthy, `isValidEmail(email)` is
true, the interpolated values `name`, `phone || "-"`, `service` and `message` convert to
strings, and both calls succeed; two bodies that differ only in `phone` get the same
response as long as `phone || "-"` converts to a string in both; and `phone || "-"` does
convert to a string whenever `phone` is absent, `null`, a boolean, a number or a string. -/
theorem response_characterised (cfg : Config) (t : Transport)
    (body name email phone service message : JSVal)
    (hb : destructure body = .ok (name, email, phone, service, message)) :
    ((contactHandler cfg t body).responses =
          [⟨400, .object [("error", .string "Required fields missing")]⟩] ∨
      (contactHandler cfg t body).responses =
          [⟨400, .object [("error", .string "Invalid email")]⟩] ∨
      (contactHandler cfg t body).responses =
          [⟨500, .object [("error", .string "Server error")]⟩] ∨
      (contactHandler cfg t body).responses = [⟨200, .object [("ok", .bool true)]⟩]) ∧
    ((contactHandler cfg t body).responses = [⟨200, .object [("ok", .bool true)]⟩] ↔
      (toBoolean name = true ∧ toBoolean email = true ∧ toBoolean service = true ∧
        toBoolean message = true ∧ isValidEmail email = .ok true ∧
        convertible name = true ∧ convertible (phone.or (.string "-")) = true ∧
        convertible service = true ∧ convertible message = true ∧
        t 0 = .ok () ∧ t 1 = .ok ())) ∧
    (∀ body' phone' : JSVal,
      destructure body' = .ok (name, email, phone', service, message) →
      convertible (phone.or (.string "-")) = true →
      convertible (phone'.or (.string "-")) = true →
      (contactHandler cfg t body').responses = (contactHandler cfg t body).responses) ∧
    (∀ p : JSVal,
      (p = .undefined ∨ p = .null ∨ (∃ b, p = .bool b) ∨ (∃ n, p = .number n) ∨
        (∃ s, p = .string s)) →
      convertible (p.or (.string "-")) = true) := by
  have hne : ∀ (c : Nat) (b : JSVal), c ≠ 200 →
      ¬ ([(⟨c, b⟩ : Response)] = [⟨200, .object [("ok", .bool true)]⟩]) := by
    intro c b hc h
    exact hc (by simpa using congrArg (fun l => l.map Response.status) h)
  refine ⟨?_, ?_, ?_, convertible_or_primitive⟩
  · rw [responses_eq cfg t body name email phone service message hb]
    split
    · exact Or.inl rfl
    · split
      · exact Or.inr (Or.inr (Or.inl rfl))
      · exact Or.inr (Or.inl rfl)
      · split
        · split
          · exact Or.inr (Or.inr (Or.inl rfl))
          · split
            · exact Or.inr (Or.inr (Or.inl rfl))
            · exact Or.inr (Or.inr (Or.inr rfl))
        · exact Or.inr (Or.inr (Or.inl rfl))
  · rw [responses_eq cfg t body name email phone service message hb]
    by_cases hc :
        (!toBoolean name || !toBoolean email || !toBoolean service || !toBoolean message) = true
    · rw [if_pos hc]
      constructor
      · intro h; exact absurd h (hne 400 _ (by decide))
      · rintro ⟨h1, h2, h3, h4, _⟩
        rw [h1, h2, h3, h4] at hc
        exact absurd hc (by decide)
    · rw [if_neg hc]
      have htruthy : toBoolean name = true ∧ toBoolean email = true ∧
          toBoolean service = true ∧ toBoolean message = true := by
        revert hc
        cases toBoolean name <;> cases toBoolean email <;> cases toBoolean service <;>
          cases toBoolean message <;> decide
      cases hv : isValidEmail email with
      | error e =>
        constructor
        · intro h; exact absurd h (hne 500 _ (by decide))
        · rintro ⟨_, _, _, _, h5, _⟩; exact Except.noConfusion h5
      | ok b =>
        cases b with
        | false =>
          constructor
          · intro h; exact absurd h (hne 400 _ (by decide))
          · rintro ⟨_, _, _, _, h5, _⟩
            injection h5 with h5
            exact Bool.noConfusion h5
        | true =>
          dsimp only
          by_cases hconv : (convertible name && convertible (phone.or (.string "-")) &&
              convertible service && convertible message) = true
          · rw [if_pos hconv]
            simp only [Bool.and_eq_true] at hconv
            cases h0 : t 0 with
            | error e =>
              constructor
              · intro h; exact absurd h (hne 500 _ (by decide))
              · rintro ⟨_, _, _, _, _, _, _, _, _, h10, _⟩; exact Except.noConfusion h10
            | ok u =>
              dsimp only
              cases h1 : t 1 with
              | error e =>
                constructor
                · intro h; exact absurd h (hne 500 _ (by decide))
                · rintro ⟨_, _, _, _, _, _, _, _, _, _, h11⟩; exact Except.noConfusion h11
              | ok u' =>
                constructor
                · intro _
                  exact ⟨htruthy.1, htruthy.2.1, htruthy.2.2.1, htruthy.2.2.2, rfl,
                    hconv.1.1.1, hconv.1.1.2, hconv.1.2, hconv.2, rfl, rfl⟩
                · intro _; rfl
          · rw [if_neg hconv]
            constructor
            · intro h; exact absurd h (hne 500 _ (by decide))
            · rintro ⟨_, _, _, _, _, h6, h7, h8, h9, _⟩
              rw [h6, h7, h8, h9] at hconv
              exact absurd rfl hconv
  · intro body' phone' hb' hp hp'
    rw [responses_eq cfg t body name email phone service message hb,
      responses_eq cfg t body' name email phone' service message hb', hp, hp']

/-- C9, amended, at the submission of Jane. -/
theorem response_characterised_witness :
    destructure janeBody = .ok (.string "Jane", .string "jane@example.com", .string "555-1234",
      .string "Consulting", .string "Hello") ∧
    (contactHandler sampleConfig allOk janeBody).responses =
      [⟨200, .object [("ok", .bool true)]⟩] ∧
    (contactHandler sampleConfig allOk janeNoPhone).responses =
      (contactHandler sampleConfig allOk janeBody).responses ∧
    convertible ((JSVal.number ⟨false, "0"⟩).or (.string "-")) = true :=
  ⟨rfl,
    (response_characterised sampleConfig allOk janeBody _ _ _ _ _ rfl).2.1.2
      ⟨rfl, rfl, rfl, rfl, by decide, rfl, rfl, rfl, rfl, rfl, rfl⟩,
    (response_characterised sampleConfig allOk janeBody _ _ _ _ _ rfl).2.2.1 janeNoPhone
      .undefined rfl rfl rfl,
    (response_characterised sampleConfig allOk janeBody _ _ _ _ _ rfl).2.2.2 _
      (Or.inr (Or.inr (Or.inr (Or.inl ⟨_, rfl⟩))))⟩

end ContactForm
